import Mathlib

/-!
# Verification of the `border` actor–learner concurrency core

Shallow embedding of the `ActorManager` in
`border-async-trainer/src/actor_manager/base.rs`, of the test agent and
batch types in `border-atari-env/src/util/test.rs`, and of the async
trainer scenario in `border/tests/test_async_trainer.rs`, together with
proofs about the lifecycle, relay-loop, termination-flag and snapshot
behaviour of that code.

Shared `Arc<Mutex<bool>>` cells are modelled by an allocation id into an
explicit store, so that "the same flag instance" is expressible; channels
are modelled by the FIFO sequence of messages they deliver plus a
disconnection bit; a panic (an `unwrap` on `Err`) is modelled as an
abnormal outcome value that propagates.
-/

namespace Border

/-- Allocation identity of a shared `Arc<Mutex<bool>>` cell; `clone`d handles
share the id. -/
abbrev FlagId := Nat

/-- Store of shared boolean cells, indexed by `FlagId`; models the heap of
live `Arc<Mutex<bool>>` allocations. -/
structure FlagStore where
  cells : List Bool
  deriving Repr, DecidableEq

/-- Reading `*cell.lock().unwrap()`. -/
def FlagStore.read (w : FlagStore) (f : FlagId) : Bool :=
  w.cells.getD f false

/-- Writing `*cell.lock().unwrap() = b`. -/
def FlagStore.write (w : FlagStore) (f : FlagId) (b : Bool) : FlagStore :=
  ⟨w.cells.set f b⟩

/-- `Arc::new(Mutex::new(b))`: allocates a fresh cell holding `b`. -/
def FlagStore.alloc (w : FlagStore) (b : Bool) : FlagId × FlagStore :=
  (w.cells.length, ⟨w.cells ++ [b]⟩)

/-- Configuration of the actor manager (`ActorManagerConfig`); `base.rs` reads
exactly the fields `n_actors` and `samples_per_push` from it. -/
structure ActorManagerConfig where
  n_actors : Nat
  samples_per_push : Nat
  deriving Repr, DecidableEq

/-- A `PushedItemMessage`: envelope of an actor id and an opaque payload. -/
structure PushedItemMessage (T : Type) where
  id : Nat
  payload : T
  deriving Repr, DecidableEq

/-- A `JoinHandle<()>` as stored in `ActorManager.threads`: which body the
thread runs and which stop-flag cell its closure captured (`self.stop.clone()`
in `ActorManager::run`). -/
structure ThreadHandle where
  /-- `true` for the message-relay thread running `Self::handle_message`,
  spawned last in `ActorManager::run`. -/
  isRelay : Bool
  /-- The actor id (also used as the seed); irrelevant for the relay thread. -/
  actorId : Nat
  /-- The stop-flag cell cloned into the thread's closure. -/
  stopFlag : FlagId
  deriving Repr, DecidableEq

/-- The `ActorManager` struct (fields of `base.rs` that carry state relevant
to lifecycle and termination; the config clones are kept abstractly). -/
structure ActorManager where
  n_actors : Nat
  samples_per_push : Nat
  /-- `threads: Vec<JoinHandle<()>>`. -/
  threads : List ThreadHandle
  /-- `stop: Arc<Mutex<bool>>`, by allocation id. -/
  stop : FlagId
  /-- Whether `batch_message_receiver` is `Some`. -/
  batch_message_receiver : Bool
  deriving Repr, DecidableEq

/-- `ActorManager::build`: clones the configurations, allocates the stop flag
as `Arc::new(Mutex::new(false))`, starts with no threads and no receiver.
It performs no environment or agent construction and returns `Self`, not a
`Result`. -/
def ActorManager.build (config : ActorManagerConfig) (w : FlagStore) :
    ActorManager × FlagStore :=
  let (stopId, w') := w.alloc false
  ({ n_actors := config.n_actors
     samples_per_push := config.samples_per_push
     threads := []
     stop := stopId
     batch_message_receiver := false }, w')

/-- `ActorManager::run`: for each `id` in `0..n_actors` spawns one actor
thread whose closure captures `self.stop.clone()`, pushing its handle, then
spawns the `handle_message` relay thread (also capturing `self.stop.clone()`)
and pushes its handle; sets `batch_message_receiver` to `Some`. -/
def ActorManager.run (m : ActorManager) : ActorManager :=
  let actorHandles := (List.range m.n_actors).map fun id =>
    ThreadHandle.mk false id m.stop
  { m with
    batch_message_receiver := true
    threads := m.threads ++ actorHandles ++ [ThreadHandle.mk true 0 m.stop] }

/-- `ActorManager::stop`: `*self.stop.lock().unwrap() = true`. -/
def ActorManager.stopActors (m : ActorManager) (w : FlagStore) : FlagStore :=
  w.write m.stop true

/-- Why a thread aborted: the `unwrap` that panicked. -/
inductive PanicReason
  /-- `receiver.recv().unwrap()` on a channel whose senders were all dropped. -/
  | recvDisconnected
  /-- `sender.send(msg).unwrap()` on a channel whose receiver was dropped. -/
  | sendDisconnected
  deriving Repr, DecidableEq

/-- How the `handle_message` relay loop ended. -/
inductive RelayOutcome
  /-- `break` after observing the stop flag true. -/
  | broke
  /-- an `unwrap` panicked, aborting the thread. -/
  | panicked (r : PanicReason)
  /-- blocked forever in `recv` (no message will ever arrive, senders alive). -/
  | blocked
  deriving Repr, DecidableEq

/-- Trace of one execution of the relay loop: the messages it received, the
messages it sent onward, and how it ended. -/
structure RelayResult (T : Type) where
  received : List T
  sent : List T
  outcome : RelayOutcome
  deriving Repr, DecidableEq

/-- `ActorManager::handle_message`'s loop. `stopAt k` is the value the k-th
iteration reads from `*stop.lock().unwrap()`; `outConnected` is whether the
trainer-side receiver of `sender` is still alive; `inbox` is the FIFO
sequence of messages the actor-side channel will deliver, after which
`inboxDisc` says whether all its senders are dropped. Each iteration is,
in code order: `receiver.recv().unwrap()`, `sender.send(msg).unwrap()`,
then `if *stop.lock().unwrap() { break }`. -/
def handle_message {T : Type} (stopAt : Nat → Bool) (outConnected inboxDisc : Bool) :
    List T → Nat → RelayResult T
  | [], _ =>
    ⟨[], [], if inboxDisc then .panicked .recvDisconnected else .blocked⟩
  | msg :: rest, k =>
    if outConnected then
      if stopAt k then ⟨[msg], [msg], .broke⟩
      else
        let r := handle_message stopAt outConnected inboxDisc rest (k + 1)
        ⟨msg :: r.received, msg :: r.sent, r.outcome⟩
    else ⟨[msg], [], .panicked .sendDisconnected⟩

/-- The relay loop as entered from `ActorManager::run` (iteration count 0). -/
def ActorManager.relay {T : Type} (stopAt : Nat → Bool)
    (outConnected inboxDisc : Bool) (inbox : List T) : RelayResult T :=
  handle_message stopAt outConnected inboxDisc inbox 0

/-- `ActorManager::join`: `for h in self.threads { h.join().unwrap() }`.
Input: the result of each stored thread, in storage order (`Err` meaning the
thread panicked). Output: how many handles were join-ed before the loop
ended, and the overall outcome — `unwrap` re-raises the first panic and
stops the loop there. -/
def ActorManager.join : List (Except PanicReason Unit) → Nat × Except PanicReason Unit
  | [] => (0, .ok ())
  | .ok _ :: rest =>
    let (n, res) := ActorManager.join rest
    (n + 1, res)
  | .error p :: _ => (1, .error p)

/-- `stop` followed by `join`, the shutdown sequence the callers use
(`actors.stop(); actors.join()`, named `stop_and_join` at the call sites):
sets the shared termination flag to true first, then joins. -/
def ActorManager.stopAndJoin (m : ActorManager) (w : FlagStore)
    (results : List (Except PanicReason Unit)) :
    FlagStore × (Nat × Except PanicReason Unit) :=
  let w' := m.stopActors w
  (w', ActorManager.join results)

/-- The operations a built manager offers, as they touch the shared state. -/
inductive MOp
  /-- `ActorManager::run` (spawns threads; does not write the flag). -/
  | run
  /-- `ActorManager::stop` (writes the flag to true). -/
  | stopOp
  /-- one iteration of `handle_message`, or an actor-side poll: reads the
  flag only. -/
  | relayIter
  /-- `ActorManager::join`: reads no shared cell. -/
  | joinOp
  deriving Repr, DecidableEq

/-- Effect of one manager operation on the manager and the shared store. -/
def MOp.apply (m : ActorManager) (w : FlagStore) : MOp → ActorManager × FlagStore
  | .run => (m.run, w)
  | .stopOp => (m, m.stopActors w)
  | .relayIter => (m, w)
  | .joinOp => (m, w)

/-- A sequence of manager operations, applied left to right. -/
def MOp.applyAll (m : ActorManager) (w : FlagStore) : List MOp → ActorManager × FlagStore
  | [] => (m, w)
  | op :: rest =>
    let (m', w') := MOp.apply m w op
    MOp.applyAll m' w' rest

/-- Modelled from the spec: `Actor::run` is not under `src/` (only its caller
in `ActorManager::run` is). Per §4.1, the loop body samples, steps the
environment, processes and accumulates the item, possibly flushes, possibly
refreshes the policy — all assumed to return — and then "(7) check
termination flag; if true, break". `stopAt k` is the flag value the k-th
iteration's check reads; the result is the index of the iteration at whose
check the loop broke (`none` when the flag stayed false for `fuel`
iterations). A normal break exits the thread with `Ok(())`. -/
def Actor.run (stopAt : Nat → Bool) : Nat → Nat → Option (Nat × Except PanicReason Unit)
  | 0, _ => none
  | fuel + 1, k =>
    if stopAt k then some (k, .ok ()) else Actor.run stopAt fuel (k + 1)

/-- `border_core::record::Record`, reduced to what the test agent produces. -/
inductive Record
  /-- `Record::empty()`. -/
  | empty
  deriving Repr, DecidableEq

/-- Configuration of `RandomAgent` (util/test.rs). -/
structure RandomAgentConfig where
  n_acts : Nat
  deriving Repr, DecidableEq

/-- The counting test agent `RandomAgent` of util/test.rs. -/
structure RandomAgent where
  n_acts : Nat
  n_opts_steps : Nat
  train : Bool
  deriving Repr, DecidableEq

/-- `Configurable::build` for `RandomAgent`. -/
def RandomAgent.build (config : RandomAgentConfig) : RandomAgent :=
  { n_acts := config.n_acts, n_opts_steps := 0, train := true }

/-- `RandomAgent::opt_with_record`: does nothing to the buffer, increments
`n_opts_steps` by one, returns `Record::empty()`. -/
def RandomAgent.opt_with_record (a : RandomAgent) : RandomAgent × Record :=
  ({ a with n_opts_steps := a.n_opts_steps + 1 }, Record.empty)

/-- `RandomAgent::model_info` (the `SyncModel` impl in test_async_trainer.rs):
takes `&self` — hence mutates nothing — and returns
`(self.n_opts_steps(), ())`. -/
def RandomAgent.model_info (a : RandomAgent) : Nat × Unit :=
  (a.n_opts_steps, ())

/-- `opt_with_record` iterated `k` times (the agent after `k` optimization
steps). -/
def RandomAgent.optSteps (a : RandomAgent) : Nat → RandomAgent
  | 0 => a
  | k + 1 => ((a.optSteps k).opt_with_record).1

/-- `AsyncTrainerConfig` as constructed in test_async_trainer.rs. -/
structure AsyncTrainerConfig where
  model_dir : Option String
  record_interval : Nat
  eval_interval : Nat
  max_train_steps : Nat
  save_interval : Nat
  sync_interval : Nat
  eval_episodes : Nat
  deriving Repr, DecidableEq

/-- `async_trainer_config()` of test_async_trainer.rs. -/
def async_trainer_config : AsyncTrainerConfig :=
  { model_dir := some ""
    record_interval := 5
    eval_interval := 105
    max_train_steps := 15
    save_interval := 5
    sync_interval := 5
    eval_episodes := 1 }

/-- State of the trainer-side loop, for the counting test agent. -/
structure AsyncTrainerState where
  agent : RandomAgent
  /-- the optimization-step counter. -/
  opt_steps : Nat
  /-- versions of the snapshots published so far, oldest first. -/
  published : List Nat
  /-- evaluation rollouts performed so far. -/
  evals : Nat
  /-- the shared termination flag handle held by the trainer. -/
  stop : FlagId
  deriving Repr, DecidableEq

/-- Modelled from the spec: `AsyncTrainer::train` is not under `src/` (only
its caller `border/tests/test_async_trainer.rs` is). Per §4.3, in the
Training state each iteration drains experience (external), performs the due
optimization step via the agent's update (incrementing the step counter), on
`step_counter mod sync_interval == 0` extracts a model snapshot (its version
taken from `model_info`) and publishes it, on the eval cadence performs an
evaluation rollout; the Terminal state is reached when
`step_counter == max_train_steps`, sets the shared termination flag to true
and returns. -/
def AsyncTrainer.trainLoop (config : AsyncTrainerConfig) :
    Nat → AsyncTrainerState → FlagStore → AsyncTrainerState × FlagStore
  | 0, s, w => (s, w)
  | fuel + 1, s, w =>
    if s.opt_steps = config.max_train_steps then
      (s, w.write s.stop true)
    else
      let (agent', _record) := s.agent.opt_with_record
      let steps := s.opt_steps + 1
      let published :=
        if steps % config.sync_interval = 0 then s.published ++ [agent'.model_info.1]
        else s.published
      let evals := if steps % config.eval_interval = 0 then s.evals + 1 else s.evals
      AsyncTrainer.trainLoop config fuel
        { agent := agent', opt_steps := steps, published := published,
          evals := evals, stop := s.stop } w

/-- `AsyncTrainer::train` on a fresh agent, with enough fuel to reach the
Terminal state of the §4.3 state machine. -/
def AsyncTrainer.train (config : AsyncTrainerConfig) (agent : RandomAgent)
    (stopId : FlagId) (w : FlagStore) : AsyncTrainerState × FlagStore :=
  AsyncTrainer.trainLoop config (config.max_train_steps + 1)
    { agent := agent, opt_steps := 0, published := [], evals := 0, stop := stopId } w

/-- `FRAME_IN_BYTES` of util/test.rs. -/
def FRAME_IN_BYTES : Nat := 84 * 84

/-- `ObsBatch` of util/test.rs: `n` samples of `m` bytes each in `buf`. -/
structure ObsBatch where
  n : Nat
  m : Nat
  buf : List Nat
  deriving Repr, DecidableEq

/-- `BatchBase::new` for `ObsBatch`: `m = 4 * FRAME_IN_BYTES`,
`buf = vec![0; capacity * m]`. -/
def ObsBatch.new (capacity : Nat) : ObsBatch :=
  { n := 0, m := 4 * FRAME_IN_BYTES, buf := List.replicate (capacity * (4 * FRAME_IN_BYTES)) 0 }

/-- One `std::ptr::copy(src, dst, len)` where `src = &srcbuf[srcOff]` and
`dst = &mut dstbuf[dstOff]`. -/
structure RawCopy where
  srcOff : Nat
  dstOff : Nat
  len : Nat
  deriving Repr, DecidableEq

/-- The copy stays inside both buffers. -/
def RawCopy.inBounds (c : RawCopy) (srcLen dstLen : Nat) : Bool :=
  decide (c.srcOff + c.len ≤ srcLen) && decide (c.dstOff + c.len ≤ dstLen)

/-- `ObsBatch::sample`, as the memory operations it performs: with
`n = ixs.len()` it allocates `buf = vec![0; n]` and, for each
`(i, ix)` in `(0..n).enumerate()`, copies `self.m` bytes from
`&self.buf[ix]` to `&mut buf[i * self.m]`. Returns the destination buffer
length and the copies, in order. -/
def ObsBatch.sampleCopies (b : ObsBatch) (ixs : List Nat) : Nat × List RawCopy :=
  let n := ixs.length
  (n, (List.range n).enum.map fun p => RawCopy.mk p.2 (p.1 * b.m) b.m)

/-- The accesses claim C10 states `ObsBatch::sample` performs: for each
`i < ixs.length`, read the `m`-byte record at byte offset `ixs[i] * m` of the
source buffer and write it at offset `i * m` of a result buffer of length
`ixs.length * m`. -/
def ObsBatch.sampleCopiesStated (b : ObsBatch) (ixs : List Nat) : Nat × List RawCopy :=
  (ixs.length * b.m, ixs.enum.map fun p => RawCopy.mk (p.2 * b.m) (p.1 * b.m) b.m)

/-! ## Helper lemmas -/

/-- Writing `true` into any cell preserves a cell that already reads `true`. -/
theorem FlagStore.read_write_true (w : FlagStore) (f g : FlagId)
    (h : w.read f = true) : (w.write g true).read f = true := by
  unfold FlagStore.read FlagStore.write at *
  have hf : f < w.cells.length := by
    rcases Nat.lt_or_ge f w.cells.length with hlt | hge
    · exact hlt
    · rw [List.getD_eq_default _ _ hge] at h
      exact absurd h (by simp)
  have hf' : f < (w.cells.set g true).length := by simpa using hf
  rw [List.getD_eq_getElem _ _ hf] at h
  rw [List.getD_eq_getElem _ _ hf', List.getElem_set]
  split
  · rfl
  · exact h

/-- Once the flag cell reads `true`, it still does after any operation
sequence. -/
theorem MOp.applyAll_read_true (ops : List MOp) :
    ∀ (m : ActorManager) (w : FlagStore) (f : FlagId), w.read f = true →
      ((MOp.applyAll m w ops).2).read f = true := by
  induction ops with
  | nil => exact fun m w f h => h
  | cons op rest ih =>
    intro m w f h
    cases op with
    | run => exact ih _ _ _ h
    | stopOp => exact ih _ _ _ (FlagStore.read_write_true w f m.stop h)
    | relayIter => exact ih _ _ _ h
    | joinOp => exact ih _ _ _ h

/-- In the relay loop with the trainer-side receiver alive, the sent sequence
equals the received sequence, and the received sequence is a prefix of the
channel's FIFO delivery sequence (any start iteration). -/
theorem handle_message_sent_eq_received {T : Type} (stopAt : Nat → Bool)
    (inboxDisc : Bool) (inbox : List T) (k : Nat) :
    (handle_message stopAt true inboxDisc inbox k).sent
      = (handle_message stopAt true inboxDisc inbox k).received
    ∧ ∃ n, (handle_message stopAt true inboxDisc inbox k).received = inbox.take n := by
  induction inbox generalizing k with
  | nil => exact ⟨rfl, 0, rfl⟩
  | cons msg rest ih =>
    rcases ih (k + 1) with ⟨ihs, n, ihn⟩
    by_cases hs : stopAt k
    · refine ⟨?_, 1, ?_⟩ <;> simp [handle_message, hs]
    · refine ⟨?_, n + 1, ?_⟩ <;> simp [handle_message, hs, ihs, ihn]

/-! ## Claims -/

/-- C1 (counterexample): with `n_actors = 2`, after `build` then `run` the
manager's thread-handle list holds 3 handles, not 2 — `run` spawns the
`handle_message` relay thread in addition to the actor threads. -/
theorem run_stores_n_actors_threads_cex :
    ¬ (((ActorManager.build ⟨2, 16⟩ ⟨[]⟩).1.run).threads.length = 2) := by
  decide

/-- C1 (amended): after `ActorManager::run` returns, exactly `n_actors + 1`
threads have been spawned and stored in the manager's thread-handle list (the
`n_actors` actor threads followed by the message-relay thread), and every
stored handle's closure captured a clone of the manager's own stop-flag
cell. -/
theorem run_stores_threads_same_flag (config : ActorManagerConfig) (w : FlagStore) :
    (((ActorManager.build config w).1.run).threads.length = config.n_actors + 1)
    ∧ ∀ t ∈ ((ActorManager.build config w).1.run).threads,
        t.stopFlag = (ActorManager.build config w).1.stop := by
  constructor
  · simp [ActorManager.build, ActorManager.run, FlagStore.alloc]
  · intro t ht
    simp only [ActorManager.build, ActorManager.run, FlagStore.alloc,
      List.nil_append, List.mem_append, List.mem_map, List.mem_range,
      List.mem_singleton] at ht
    rcases ht with ⟨id, _, rfl⟩ | rfl <;> rfl

/-- C1 (witness for the amended theorem): the relay handle stored by a
2-actor manager observes the manager's own stop-flag cell. -/
theorem run_stores_threads_same_flag_witness :
    (ThreadHandle.mk true 0 0).stopFlag = (ActorManager.build ⟨2, 16⟩ ⟨[]⟩).1.stop :=
  (run_stores_threads_same_flag ⟨2, 16⟩ ⟨[]⟩).2 (ThreadHandle.mk true 0 0) (by decide)

/-- C3: the shared termination flag is monotone: `build` allocates it holding
`false`; every manager operation other than `stop` leaves the shared store
untouched; `stop` writes exactly `true` into the manager's flag cell; and over
any sequence of manager operations a flag cell that reads `true` never goes
back to `false`. -/
theorem termination_flag_monotone (config : ActorManagerConfig) (w : FlagStore)
    (ops : List MOp) :
    ((ActorManager.build config w).2.read (ActorManager.build config w).1.stop = false)
    ∧ (∀ (m : ActorManager) (w' : FlagStore) (op : MOp), op ≠ .stopOp →
        (MOp.apply m w' op).2 = w')
    ∧ (∀ (m : ActorManager) (w' : FlagStore),
        (MOp.apply m w' .stopOp).2 = w'.write m.stop true)
    ∧ (∀ (m : ActorManager) (w' : FlagStore) (f : FlagId), w'.read f = true →
        ((MOp.applyAll m w' ops).2).read f = true) := by
  refine ⟨?_, ?_, fun m w' => rfl, fun m w' f h => MOp.applyAll_read_true ops m w' f h⟩
  · simp [ActorManager.build, FlagStore.alloc, FlagStore.read]
  · intro m w' op hop
    cases op with
    | run => rfl
    | stopOp => exact absurd rfl hop
    | relayIter => rfl
    | joinOp => rfl

/-- C3 (witness): concretely, a cell holding `true` still holds `true` after
`run`, `stop`, a relay iteration and `join`; and `run` alone does not touch
the store. -/
theorem termination_flag_monotone_witness :
    ((MOp.applyAll (ActorManager.mk 2 16 [] 0 false) ⟨[true]⟩
        [MOp.run, MOp.stopOp, MOp.relayIter, MOp.joinOp]).2).read 0 = true
    ∧ (MOp.apply (ActorManager.mk 2 16 [] 0 false) ⟨[true]⟩ MOp.run).2 = ⟨[true]⟩ :=
  ⟨(termination_flag_monotone ⟨2, 16⟩ ⟨[]⟩
      [MOp.run, MOp.stopOp, MOp.relayIter, MOp.joinOp]).2.2.2
      (ActorManager.mk 2 16 [] 0 false) ⟨[true]⟩ 0 (by decide),
   (termination_flag_monotone ⟨2, 16⟩ ⟨[]⟩ []).2.1
      (ActorManager.mk 2 16 [] 0 false) ⟨[true]⟩ MOp.run (by decide)⟩

/-- C2: for every sequence of messages the relay loop of
`ActorManager::handle_message` receives, the sequence it sends onward to the
trainer equals the sequence it received — each received message forwarded
exactly once, no duplication, no loss, no reordering — and the received
sequence is a prefix of the FIFO delivery order of the experience channel, so
per-producer FIFO order is preserved end to end. -/
theorem relay_forwards_received_fifo {T : Type} (stopAt : Nat → Bool)
    (inboxDisc : Bool) (inbox : List T) :
    (ActorManager.relay stopAt true inboxDisc inbox).sent
      = (ActorManager.relay stopAt true inboxDisc inbox).received
    ∧ ∃ n, (ActorManager.relay stopAt true inboxDisc inbox).received = inbox.take n :=
  handle_message_sent_eq_received stopAt inboxDisc inbox 0

/-- C7: inside the steady-state relay loop, a receive on a channel whose
senders are all dropped, or a send on a channel whose receiver is dropped, is
fatal to the relay thread: the iteration ends in a panic (the `unwrap` on the
`Err`), not in a structured error value, and `ActorManager::join`'s own
`unwrap` re-raises such a panic to the caller instead of catching it. -/
theorem disconnected_channel_panics {T : Type} (stopAt : Nat → Bool)
    (oc disc : Bool) (k : Nat) (msg : T) (rest : List T) (p : PanicReason)
    (post : List (Except PanicReason Unit)) :
    ((handle_message stopAt oc true ([] : List T) k).outcome
      = .panicked .recvDisconnected)
    ∧ ((handle_message stopAt false disc (msg :: rest) k).outcome
      = .panicked .sendDisconnected)
    ∧ (ActorManager.join (.error p :: post) = (1, .error p)) :=
  ⟨rfl, rfl, rfl⟩

/-- Iteration bound for the relay loop: if the stop flag reads `true` from
iteration `k` on (it is only read at `k` itself here), the loop starting at
iteration `k0 ≤ k` completes at most `k + 1 - k0` iterations. -/
theorem handle_message_iters_le {T : Type} (stopAt : Nat → Bool)
    (oc disc : Bool) (k : Nat) (hk : stopAt k = true) :
    ∀ (inbox : List T) (k0 : Nat), k0 ≤ k →
      (handle_message stopAt oc disc inbox k0).received.length ≤ k + 1 - k0 := by
  intro inbox
  induction inbox with
  | nil => intro k0 h0; simp [handle_message]
  | cons msg rest ih =>
    intro k0 h0
    by_cases hoc : oc = true
    · subst hoc
      by_cases hs : stopAt k0
      · simp [handle_message, hs]
        omega
      · have hne : k0 ≠ k := fun h => by rw [h] at hs; exact hs hk
        have h1 : k0 + 1 ≤ k := by omega
        have := ih (k0 + 1) h1
        simp only [handle_message, if_pos rfl, if_neg hs, if_true, List.length_cons]
        omega
    · have hoc' : oc = false := by revert hoc; cases oc <;> simp
      subst hoc'
      simp [handle_message]
      omega

/-- With all senders of the experience channel dropped once its queue drains,
the relay loop never blocks: it either breaks or panics. -/
theorem handle_message_not_blocked {T : Type} (stopAt : Nat → Bool) (oc : Bool) :
    ∀ (inbox : List T) (k0 : Nat),
      (handle_message stopAt oc true inbox k0).outcome ≠ .blocked := by
  intro inbox
  induction inbox with
  | nil => intro k0; simp [handle_message]
  | cons msg rest ih =>
    intro k0
    by_cases hoc : oc = true
    · subst hoc
      by_cases hs : stopAt k0
      · simp [handle_message, hs]
      · simpa [handle_message, hs] using ih (k0 + 1)
    · have hoc' : oc = false := by revert hoc; cases oc <;> simp
      subst hoc'
      simp [handle_message]

/-- Joining threads that all exited normally joins every handle, in storage
order, and returns normally. -/
theorem ActorManager.join_all_ok (rs : List (Except PanicReason Unit))
    (h : ∀ r ∈ rs, r = .ok ()) : ActorManager.join rs = (rs.length, .ok ()) := by
  induction rs with
  | nil => rfl
  | cons r rest ih =>
    have hr := h r (List.mem_cons_self r rest)
    subst hr
    have hrest := ih fun x hx => h x (List.mem_cons_of_mem _ hx)
    simp [ActorManager.join, hrest]

/-- The modelled actor loop breaks no later than the first iteration whose
flag check reads `true`, exiting its thread normally. -/
theorem Actor.run_stops (stopAt : Nat → Bool) (k : Nat) (hk : stopAt k = true) :
    ∀ (fuel k0 : Nat), k0 ≤ k → k < k0 + fuel →
      ∃ j, j ≤ k ∧ Actor.run stopAt fuel k0 = some (j, .ok ()) := by
  intro fuel
  induction fuel with
  | zero => intro k0 h0 hf; omega
  | succ n ih =>
    intro k0 h0 hf
    by_cases hs : stopAt k0
    · exact ⟨k0, h0, by simp [Actor.run, hs]⟩
    · have hne : k0 ≠ k := fun h => by rw [h] at hs; exact hs hk
      rcases ih (k0 + 1) (by omega) (by omega) with ⟨j, hj, hrun⟩
      exact ⟨j, hj, by simpa [Actor.run, hs] using hrun⟩

/-- C4: termination liveness. Once the shared termination flag reads `true`
(here: at iteration index `k` of every loop's flag check), (a) the relay loop
of `handle_message` completes at most `k + 1` iterations and — since the actor
threads exit and drop their senders — does not block, so it exits (by break or
by the disconnect panic); (b) every actor thread (modelled from the spec,
given that environment/policy calls return) breaks by iteration `k` and exits
normally; (c) `stop` followed by `join` on the terminated threads returns,
with the shared flag set. -/
theorem stop_implies_bounded_termination {T : Type} (stopAt : Nat → Bool)
    (oc : Bool) (k : Nat) (hk : stopAt k = true) (inbox : List T)
    (fuel : Nat) (hfuel : k < fuel) (m : ActorManager) (w : FlagStore)
    (rs : List (Except PanicReason Unit)) :
    ((ActorManager.relay stopAt oc true inbox).received.length ≤ k + 1)
    ∧ ((ActorManager.relay stopAt oc true inbox).outcome ≠ .blocked)
    ∧ (∃ j, j ≤ k ∧ Actor.run stopAt fuel 0 = some (j, .ok ()))
    ∧ ((∀ r ∈ rs, r = .ok ()) →
        (m.stopAndJoin w rs).2 = (rs.length, .ok ())) := by
  refine ⟨?_, handle_message_not_blocked stopAt oc inbox 0, ?_, ?_⟩
  · have := handle_message_iters_le stopAt oc true k hk inbox 0 (Nat.zero_le k)
    simpa [ActorManager.relay] using this
  · exact Actor.run_stops stopAt k hk fuel 0 (Nat.zero_le k) (by omega)
  · intro hall
    simp [ActorManager.stopAndJoin, ActorManager.join_all_ok rs hall]

/-- C4 (witness): with the flag true from iteration 1 on, a three-message
inbox yields at most two relay iterations and no blocking, the actor loop
breaks at iteration 1, and stop-then-join of the two normal actor exits and
the relay exit returns all three joined. -/
theorem stop_implies_bounded_termination_witness :
    ((ActorManager.relay (fun i => decide (1 ≤ i)) true true [10, 20, 30]).received.length ≤ 2)
    ∧ ((ActorManager.relay (fun i => decide (1 ≤ i)) true true [10, 20, 30]).outcome ≠ .blocked)
    ∧ (∃ j, j ≤ 1 ∧ Actor.run (fun i => decide (1 ≤ i)) 5 0 = some (j, .ok ()))
    ∧ ((∀ r ∈ [(Except.ok () : Except PanicReason Unit), .ok (), .ok ()],
          r = Except.ok ()) →
        ((ActorManager.mk 2 16 [] 0 false).stopAndJoin ⟨[false]⟩
          [.ok (), .ok (), .ok ()]).2 = (3, .ok ())) := by
  exact stop_implies_bounded_termination (fun i => decide (1 ≤ i)) true 1 (by decide)
    [10, 20, 30] 5 (by decide) (ActorManager.mk 2 16 [] 0 false) ⟨[false]⟩
    [.ok (), .ok (), .ok ()]

/-- Writing `true` into an allocated cell makes it read `true`. -/
theorem FlagStore.read_write_self (w : FlagStore) (f : FlagId)
    (h : f < w.cells.length) : (w.write f true).read f = true := by
  unfold FlagStore.read FlagStore.write
  have h' : f < (w.cells.set f true).length := by simpa using h
  rw [List.getD_eq_getElem _ _ h', List.getElem_set]
  simp

/-- Joining stops at the first panicked thread, in storage order, and
re-raises its panic. -/
theorem ActorManager.join_first_error (pre post : List (Except PanicReason Unit))
    (p : PanicReason) (h : ∀ r ∈ pre, r = .ok ()) :
    ActorManager.join (pre ++ .error p :: post) = (pre.length + 1, .error p) := by
  induction pre with
  | nil => rfl
  | cons r rest ih =>
    have hr := h r (List.mem_cons_self r rest)
    subst hr
    have hrest := ih fun x hx => h x (List.mem_cons_of_mem _ hx)
    simp [ActorManager.join, hrest]

/-- C6: stopping and joining the pool first sets the shared termination flag
to true — the flag already reads true in the store in which the joins happen —
then joins the stored thread handles in storage order: if none panicked every
handle is joined and the call returns normally; otherwise the joins stop at
the first panicked handle (in storage order) and its panic is re-raised to
the caller rather than being caught or converted into a structured error. -/
theorem stop_then_join_order_first_panic (m : ActorManager) (w : FlagStore)
    (hv : m.stop < w.cells.length)
    (rs pre post : List (Except PanicReason Unit)) (p : PanicReason) :
    ((m.stopAndJoin w rs).1.read m.stop = true)
    ∧ ((∀ r ∈ rs, r = .ok ()) →
        m.stopAndJoin w rs = (m.stopActors w, (rs.length, .ok ())))
    ∧ ((∀ r ∈ pre, r = .ok ()) →
        (m.stopAndJoin w (pre ++ .error p :: post)).2 = (pre.length + 1, .error p)) := by
  refine ⟨FlagStore.read_write_self w m.stop hv, ?_, ?_⟩
  · intro hall
    simp [ActorManager.stopAndJoin, ActorManager.join_all_ok rs hall]
  · intro hpre
    simp [ActorManager.stopAndJoin, ActorManager.join_first_error pre post p hpre]

/-- C6 (witness): a two-actor manager whose flag cell is allocated; with all
threads exited normally the join returns normally after the flag was set; with
the second thread panicked on a disconnected send, that panic is re-raised
after the first handle was joined. -/
theorem stop_then_join_order_first_panic_witness :
    (((ActorManager.mk 2 16 [] 0 false).stopAndJoin ⟨[false]⟩
        [(Except.ok () : Except PanicReason Unit), .ok ()]).1.read 0 = true)
    ∧ ((∀ r ∈ [(Except.ok () : Except PanicReason Unit), .ok ()], r = Except.ok ()) →
        (ActorManager.mk 2 16 [] 0 false).stopAndJoin ⟨[false]⟩ [.ok (), .ok ()]
          = ((ActorManager.mk 2 16 [] 0 false).stopActors ⟨[false]⟩, (2, .ok ())))
    ∧ ((∀ r ∈ [(Except.ok () : Except PanicReason Unit)], r = Except.ok ()) →
        ((ActorManager.mk 2 16 [] 0 false).stopAndJoin ⟨[false]⟩
          ([.ok ()] ++ .error .sendDisconnected :: [])).2
          = (2, .error .sendDisconnected)) := by
  exact stop_then_join_order_first_panic (ActorManager.mk 2 16 [] 0 false) ⟨[false]⟩
    (by decide) [.ok (), .ok ()] [.ok ()] [] .sendDisconnected

/-- Lifecycle events of the manager, as they occur on the program timeline. -/
inductive LifeEvent
  /-- `std::thread::spawn` of actor `id` in `ActorManager::run`. -/
  | spawnThread (id : Nat)
  /-- `Actor::build` — the environment/agent construction — which is the first
  statement of actor `id`'s spawned closure (base.rs lines 107–118). -/
  | constructEnvAgent (id : Nat)
  /-- `std::thread::spawn` of the `handle_message` relay thread. -/
  | spawnRelay
  deriving Repr, DecidableEq

/-- Whether an event is a thread spawn. -/
def LifeEvent.isSpawn : LifeEvent → Bool
  | .spawnThread _ => true
  | .spawnRelay => true
  | .constructEnvAgent _ => false

/-- Whether an event is an environment/agent construction. -/
def LifeEvent.isConstruct : LifeEvent → Bool
  | .constructEnvAgent _ => true
  | _ => false

/-- The lifecycle events performed by `ActorManager::build` (base.rs 67–86):
it clones the configurations and allocates the flag — it spawns nothing and
constructs no environment or agent, and returns `Self` rather than a
`Result`, so it can surface no construction error. -/
def ActorManager.buildEvents : List LifeEvent := []

/-- The lifecycle events of the actor part of `ActorManager::run` for
`n` actors, under the schedule in which each spawned thread's first statement
(`Actor::build`, its environment/agent construction) runs immediately after
its spawn; in every schedule each thread's construction still follows its own
spawn, since it executes inside the spawned closure. -/
def ActorManager.actorRunEvents (n : Nat) : List LifeEvent :=
  (List.range n).flatMap fun id => [.spawnThread id, .constructEnvAgent id]

/-- The lifecycle events of `ActorManager::run` (base.rs 89–132): the actor
spawns (each followed by its in-thread construction), then the relay-thread
spawn. -/
def ActorManager.runEvents (n : Nat) : List LifeEvent :=
  ActorManager.actorRunEvents n ++ [.spawnRelay]

/-- The property claim C5 asserts of a timeline: once some thread has been
spawned, no environment/agent construction occurs any more. -/
def noConstructionAfterSpawn (evts : List LifeEvent) : Bool :=
  (evts.dropWhile fun e => !e.isSpawn).all fun e => !e.isConstruct

/-- Unfolding of `actorRunEvents` at a successor. -/
theorem ActorManager.actorRunEvents_succ (n : Nat) :
    ActorManager.actorRunEvents (n + 1)
      = ActorManager.actorRunEvents n
        ++ [.spawnThread n, .constructEnvAgent n] := by
  unfold ActorManager.actorRunEvents
  rw [List.range_succ, List.flatMap_append]
  rfl

/-- `actorRunEvents n` has two events per actor. -/
theorem ActorManager.actorRunEvents_length (n : Nat) :
    (ActorManager.actorRunEvents n).length = 2 * n := by
  induction n with
  | zero => rfl
  | succ n ih =>
    rw [ActorManager.actorRunEvents_succ, List.length_append, ih]
    simp
    omega

/-- In `actorRunEvents`, actor `id`'s spawn sits at position `2*id` and its
construction right after it. -/
theorem ActorManager.actorRunEvents_get (n id : Nat) (h : id < n) :
    (ActorManager.actorRunEvents n)[2 * id]? = some (.spawnThread id)
    ∧ (ActorManager.actorRunEvents n)[2 * id + 1]? = some (.constructEnvAgent id) := by
  induction n with
  | zero => omega
  | succ n ih =>
    rw [ActorManager.actorRunEvents_succ]
    rcases Nat.lt_or_ge id n with hlt | hge
    · rcases ih hlt with ⟨h1, h2⟩
      have hl1 : 2 * id < (ActorManager.actorRunEvents n).length := by
        rw [ActorManager.actorRunEvents_length]; omega
      have hl2 : 2 * id + 1 < (ActorManager.actorRunEvents n).length := by
        rw [ActorManager.actorRunEvents_length]; omega
      rw [List.getElem?_append_left hl1, List.getElem?_append_left hl2]
      exact ⟨h1, h2⟩
    · have hid : id = n := by omega
      subst hid
      have hl : (ActorManager.actorRunEvents id).length = 2 * id :=
        ActorManager.actorRunEvents_length id
      constructor
      · rw [List.getElem?_append_right (by omega), hl]
        simp
      · rw [List.getElem?_append_right (by omega), hl]
        have : 2 * id + 1 - 2 * id = 1 := by omega
        rw [this]
        rfl

/-- C5 (counterexample): with one actor, the run timeline is
`[spawn 0, construct 0, spawn relay]`: the environment/agent construction of
actor 0 happens after its thread is spawned — constructions do occur after
threads start — while `ActorManager::build` performs none at all (and, being
infallible, surfaces no construction error to the caller). -/
theorem construction_before_spawn_cex :
    ActorManager.buildEvents = []
    ∧ ActorManager.runEvents 1
      = [.spawnThread 0, .constructEnvAgent 0, .spawnRelay]
    ∧ noConstructionAfterSpawn (ActorManager.runEvents 1) = false := by
  refine ⟨rfl, rfl, rfl⟩

/-- C5 (amended): `ActorManager::build` performs no environment or agent
construction (and returns `Self`, not a `Result`); each actor's
environment/agent construction is the first statement of its own spawned
thread, so on the run timeline actor `id`'s construction occurs at the
position immediately after its spawn. -/
theorem construction_inside_spawned_threads (n id : Nat) (h : id < n) :
    ActorManager.buildEvents = []
    ∧ (ActorManager.runEvents n)[2 * id]? = some (.spawnThread id)
    ∧ (ActorManager.runEvents n)[2 * id + 1]? = some (.constructEnvAgent id) := by
  rcases ActorManager.actorRunEvents_get n id h with ⟨h1, h2⟩
  have hl1 : 2 * id < (ActorManager.actorRunEvents n).length := by
    rw [ActorManager.actorRunEvents_length]; omega
  have hl2 : 2 * id + 1 < (ActorManager.actorRunEvents n).length := by
    rw [ActorManager.actorRunEvents_length]; omega
  unfold ActorManager.runEvents
  rw [List.getElem?_append_left hl1, List.getElem?_append_left hl2]
  exact ⟨rfl, h1, h2⟩

/-- C5 (witness for the amended theorem): with two actors, actor 1's spawn is
event 2 and its construction event 3. -/
theorem construction_inside_spawned_threads_witness :
    ActorManager.buildEvents = []
    ∧ (ActorManager.runEvents 2)[2 * 1]? = some (.spawnThread 1)
    ∧ (ActorManager.runEvents 2)[2 * 1 + 1]? = some (.constructEnvAgent 1) :=
  construction_inside_spawned_threads 2 1 (by decide)

/-- `optSteps` adds exactly its argument to the optimization-step counter. -/
theorem RandomAgent.optSteps_n_opts (a : RandomAgent) (k : Nat) :
    (a.optSteps k).n_opts_steps = a.n_opts_steps + k := by
  induction k with
  | zero => rfl
  | succ k ih => simp [RandomAgent.optSteps, RandomAgent.opt_with_record, ih]; omega

/-- C8 (counterexample): `model_info` takes `&self` and mutates nothing, so
two successive snapshot extractions with no optimization step in between — on
a freshly built counting agent — return the same version, not strictly
increasing ones. -/
theorem snapshot_versions_increasing_cex :
    ((RandomAgent.build ⟨6⟩).model_info).1 = ((RandomAgent.build ⟨6⟩).model_info).1
    ∧ ¬ (((RandomAgent.build ⟨6⟩).model_info).1
          < ((RandomAgent.build ⟨6⟩).model_info).1) := by
  exact ⟨rfl, by decide⟩

/-- C8 (amended): `model_info` returns version `n_opts_steps`;
`opt_with_record` increments `n_opts_steps` by exactly one per call; and two
`model_info` calls separated by at least one intervening `opt_with_record`
call return strictly increasing versions (with no intervening step the
version is unchanged). -/
theorem snapshot_versions_monotone (a : RandomAgent) (k : Nat) (hk : 1 ≤ k) :
    (a.model_info = (a.n_opts_steps, ()))
    ∧ ((a.opt_with_record).1.n_opts_steps = a.n_opts_steps + 1)
    ∧ ((a.model_info).1 < ((a.optSteps k).model_info).1)
    ∧ ((a.optSteps 0).model_info).1 = (a.model_info).1 := by
  refine ⟨rfl, rfl, ?_, rfl⟩
  have h := RandomAgent.optSteps_n_opts a k
  simp only [RandomAgent.model_info, h]
  omega

/-- C8 (witness): on a fresh agent, five optimization steps take the
extracted version from 0 to 5. -/
theorem snapshot_versions_monotone_witness :
    ((RandomAgent.build ⟨6⟩).model_info = ((RandomAgent.build ⟨6⟩).n_opts_steps, ()))
    ∧ (((RandomAgent.build ⟨6⟩).opt_with_record).1.n_opts_steps
        = (RandomAgent.build ⟨6⟩).n_opts_steps + 1)
    ∧ (((RandomAgent.build ⟨6⟩).model_info).1
        < (((RandomAgent.build ⟨6⟩).optSteps 5).model_info).1)
    ∧ (((RandomAgent.build ⟨6⟩).optSteps 0).model_info).1
        = ((RandomAgent.build ⟨6⟩).model_info).1 :=
  snapshot_versions_monotone (RandomAgent.build ⟨6⟩) 5 (by decide)

/-- C9: the end-to-end scenario of test_async_trainer.rs — two actors,
`sync_interval = 5`, `max_train_steps = 15`, `eval_interval = 105`, counting
dummy agent — run against the spec-modelled trainer state machine: after
`train` returns, the agent's `n_opts_steps` counter is exactly 15, the shared
termination flag was set to true, the published snapshot versions were
5, 10, 15, no evaluation ever fired, and both actor threads (observing the
now-true flag) break immediately, exit normally and join without error. -/
theorem test_async_trainer_scenario :
    ((AsyncTrainer.train async_trainer_config (RandomAgent.build ⟨6⟩) 0
        ⟨[false]⟩).1.agent.n_opts_steps = 15)
    ∧ ((AsyncTrainer.train async_trainer_config (RandomAgent.build ⟨6⟩) 0
        ⟨[false]⟩).2.read 0 = true)
    ∧ ((AsyncTrainer.train async_trainer_config (RandomAgent.build ⟨6⟩) 0
        ⟨[false]⟩).1.published = [5, 10, 15])
    ∧ ((AsyncTrainer.train async_trainer_config (RandomAgent.build ⟨6⟩) 0
        ⟨[false]⟩).1.evals = 0)
    ∧ (Actor.run (fun _ =>
        (AsyncTrainer.train async_trainer_config (RandomAgent.build ⟨6⟩) 0
          ⟨[false]⟩).2.read 0) 1 0 = some (0, .ok ()))
    ∧ (ActorManager.join [.ok (), .ok ()] = (2, .ok ())) := by
  refine ⟨by decide, by decide, by decide, by decide, by rfl, rfl⟩

/-- C10: `ObsBatch::sample` with per-record length `m = 4*84*84` performs
out-of-bounds accesses. On a capacity-2 batch with `ixs = [0]` it performs the
single raw copy `(srcOff 0, dstOff 0, len 28224)` into a destination buffer it
allocated with length `ixs.len() = 1` — 28224 bytes into a 1-byte buffer —
whereas the accesses the claim states (destination of length `n*m`, reads at
`ixs[i]*m`) would all be in bounds; moreover the copies ignore the contents of
`ixs` entirely (requesting record 1 performs the same copies as requesting
record 0, reading from the loop index instead). -/
theorem obsbatch_sample_out_of_bounds :
    (((ObsBatch.new 2).sampleCopies [0]).1 = 1
      ∧ ((ObsBatch.new 2).sampleCopies [0]).2 = [RawCopy.mk 0 0 (4 * FRAME_IN_BYTES)])
    ∧ (((ObsBatch.new 2).sampleCopies [0]).2.all fun c =>
        c.inBounds (ObsBatch.new 2).buf.length ((ObsBatch.new 2).sampleCopies [0]).1) = false
    ∧ (((ObsBatch.new 2).sampleCopiesStated [0]).2.all fun c =>
        c.inBounds (ObsBatch.new 2).buf.length ((ObsBatch.new 2).sampleCopiesStated [0]).1) = true
    ∧ ((ObsBatch.new 2).sampleCopies [1]).2 = ((ObsBatch.new 2).sampleCopies [0]).2 := by
  have hlen : (ObsBatch.new 2).buf.length = 2 * (4 * FRAME_IN_BYTES) := by
    simp [ObsBatch.new]
  refine ⟨⟨rfl, rfl⟩, ?_, ?_, rfl⟩ <;> rw [hlen] <;> decide

end Border
